import Mathlib

/-!
Verification of the Worker/Channel notification framework of
`Mod_ThreadWorkers.py` (classes `ThreadChannel`, `ThreadWorker`,
`ThreadWorkerCommunicator`, `TicketCreator`).

Modelling conventions:
* Python values that ever travel on a channel in this program are ints,
  strings, bools and one dict whose values are all ints, so `PyVal` covers
  exactly those.  `isinstance` mirrors Python's runtime check, including
  the fact that `bool` is a subclass of `int`.
* A `ThreadChannel` is its queue (FIFO, head = oldest), its declared type,
  its subscriber list (identified by name, in registration order) and the
  `max_entries_per_loop` bound (initialised to 4 in `__init__`).
  `run_loop` returns the invocation trace (subscriber, value) in call
  order together with the updated channel; callbacks are modelled as
  opaque names because the code only calls them, it never inspects them.
* `send` wraps its body in try/except, so no exception ever reaches the
  caller; the model is therefore a total function.
* The `report_*` methods of `ThreadWorker` are modelled as the trace of
  channel events they emit, each event passing through the same
  `isinstance` gate that `ThreadChannel.send` applies.
* `time.sleep` calls, logging via `print`, and the monitor thread are
  side effects with no influence on which events are emitted or their
  order; they are not modelled.
* Python's `round` on `((count + 1) / num_selected) * 100` is modelled as
  round-half-to-even on the exact rational, `pyRound`.
-/

/-- Python runtime values that appear on channels in this program.  The only
dict ever sent (the `TicketCreator` result) has int values throughout. -/
inductive PyVal where
  | int (n : Int)
  | str (s : String)
  | bool (b : Bool)
  | dict (entries : List (String × Int))
deriving DecidableEq, Repr

/-- The `var_type` arguments used by this program: `int`, `str`, `bool`,
`object` (from `ThreadWorkerChannels.__init__`). -/
inductive PyType where
  | int
  | str
  | bool
  | obj
deriving DecidableEq, Repr

/-- Python's `isinstance(data, var_type)` for the values and types above.
Everything is an instance of `object`, and `bool` is a subclass of `int`. -/
def isinstance : PyVal → PyType → Bool
  | _, .obj => true
  | .int _, .int => true
  | .bool _, .int => true
  | .bool _, .bool => true
  | .str _, .str => true
  | _, _ => false

/-- State of a `ThreadChannel` (Mod_ThreadWorkers.py lines 19-31): declared
type, FIFO queue of pending values (head = oldest), subscribed callbacks in
registration order, and the per-cycle bound (4 in `__init__`). -/
structure ThreadChannel where
  var_type : PyType
  queue : List PyVal
  callbacks : List String
  max_entries_per_loop : Nat := 4
deriving DecidableEq, Repr

/-- `ThreadChannel.send` (lines 38-49): if `isinstance(data, self.var_type)`
fails, an exception is raised, immediately caught by the surrounding
try/except and only logged, so the queue is untouched and nothing reaches
the caller; otherwise the value is appended to the queue. -/
def ThreadChannel.send (ch : ThreadChannel) (data : PyVal) : ThreadChannel :=
  if isinstance data ch.var_type then
    { ch with queue := ch.queue ++ [data] }
  else
    ch

/-- `ThreadChannel.subscribe` (lines 51-55): appends the callback to the
subscriber list. -/
def ThreadChannel.subscribe (ch : ThreadChannel) (on_data : String) : ThreadChannel :=
  { ch with callbacks := ch.callbacks ++ [on_data] }

/-- Body of the `while not self.queue.empty()` loop of
`ThreadChannel.run_loop` (lines 60-68).  `num_processed` is the count of
values handled before the current iteration.  Each dequeued value is passed
to every callback in registration order, `num_processed` is incremented,
and the loop breaks once `num_processed >= max_entries_per_loop` (checked
only after a value has been processed).  Returns the invocation trace in
call order and the remaining queue. -/
def runLoopGo (cbs : List String) (maxE : Nat) :
    List PyVal → Nat → List (String × PyVal) × List PyVal
  | [], _ => ([], [])
  | d :: rest, num_processed =>
      if num_processed + 1 ≥ maxE then
        (cbs.map (fun cb => (cb, d)), rest)
      else
        ((cbs.map fun cb => (cb, d)) ++ (runLoopGo cbs maxE rest (num_processed + 1)).1,
          (runLoopGo cbs maxE rest (num_processed + 1)).2)

/-- `ThreadChannel.run_loop` (lines 57-70): drains the queue with
`num_processed` starting at 0.  The try/except around the loop only
confines callback exceptions, which the trace model does not raise. -/
def ThreadChannel.run_loop (ch : ThreadChannel) : List (String × PyVal) × ThreadChannel :=
  ((runLoopGo ch.callbacks ch.max_entries_per_loop ch.queue 0).1,
    { ch with queue := (runLoopGo ch.callbacks ch.max_entries_per_loop ch.queue 0).2 })

/-- One event sent on one of the five channels of `ThreadWorkerChannels`
(progress, status, error, success, result), tagged by channel. -/
inductive WEvent where
  | progress (v : PyVal)
  | status (v : PyVal)
  | error (v : PyVal)
  | success (v : PyVal)
  | result (v : PyVal)
deriving DecidableEq, Repr

/-- Trace view of `ThreadChannel.send` for a channel of declared type `t`:
the event is recorded exactly when the `isinstance` gate passes (otherwise
the value is dropped, cf. `ThreadChannel.send`). -/
def channelSend (t : PyType) (mk : PyVal → WEvent) (v : PyVal) : List WEvent :=
  if isinstance v t then [mk v] else []

/-- `ThreadWorker.report_progress` (lines 116-118): `channels.progress.send(progress)`.
The progress channel's declared type is `int`; no range check exists. -/
def ThreadWorker.report_progress (progress : PyVal) : List WEvent :=
  channelSend PyType.int WEvent.progress progress

/-- `ThreadWorker.report_status` (lines 120-122): `channels.status.send(message)`. -/
def ThreadWorker.report_status (message : PyVal) : List WEvent :=
  channelSend PyType.str WEvent.status message

/-- `ThreadWorker.report_error` (lines 124-128): `report_status('Error')`,
then `channels.error.send(message)`, then `channels.success.send(False)`. -/
def ThreadWorker.report_error (message : PyVal) : List WEvent :=
  ThreadWorker.report_status (PyVal.str "Error")
    ++ channelSend PyType.str WEvent.error message
    ++ channelSend PyType.bool WEvent.success (PyVal.bool false)

/-- `ThreadWorker.report_success` (lines 130-133): `report_status('Success')`,
then `channels.success.send(True)`. -/
def ThreadWorker.report_success : List WEvent :=
  ThreadWorker.report_status (PyVal.str "Success")
    ++ channelSend PyType.bool WEvent.success (PyVal.bool true)

/-- `ThreadWorker.report_result` (lines 135-137): `channels.result.send(result)`;
the result channel's declared type is `object`, so everything passes. -/
def ThreadWorker.report_result (result : PyVal) : List WEvent :=
  channelSend PyType.obj WEvent.result result

/-- One execution of a subclass's `thread_action`: the channel events it
emitted, in order, and whether it ended by raising an uncaught exception
(after emitting those events). -/
structure TaskOutcome where
  events : List WEvent
  raised : Bool
deriving DecidableEq, Repr

/-- `ThreadWorker.run` (lines 139-151): emits status `"Starting"`, starts the
monitor thread, emits progress 0, runs `thread_action` inside try/except
(an uncaught exception is only printed, never re-raised and never turned
into a channel event), sleeps, cleans up.  The result is the full event
trace of the run paired with whether an exception propagates to `run`'s
caller (it never does). -/
def ThreadWorker.run (t : TaskOutcome) : List WEvent × Bool :=
  (ThreadWorker.report_status (PyVal.str "Starting")
      ++ ThreadWorker.report_progress (PyVal.int 0)
      ++ t.events,
    false)

/-- An input item of `TicketCreator`: the code only reads `item['id']` and
formats it with `%s`, so an item is modelled by the string rendering of its
identifier. -/
structure Item where
  id : String
deriving DecidableEq, Repr

/-- Python's `round` applied to the exact rational `num / den` (both
non-negative): round half to even, as `round(((count + 1) / num_selected) * 100)`
computes in `TicketCreator.thread_action` line 251 (float representation
error of the quotient is not modelled). -/
def pyRound (num den : Nat) : Nat :=
  if 2 * (num % den) < den then num / den
  else if den < 2 * (num % den) then num / den + 1
  else if num / den % 2 = 0 then num / den
  else num / den + 1

/-- The `for item in self.items` loop of `TicketCreator.thread_action`
(lines 249-259): per item, a status naming the item's contract id, then a
progress report of `round(((count + 1) / num_selected) * 100)`; `count` and
`num_created` both increase by one per iteration.  Returns the emitted
events and the final `num_created`. -/
def TicketCreator.ticketLoop (num_selected : Nat) :
    List Item → Nat → Nat → List WEvent × Nat
  | [], _, num_created => ([], num_created)
  | item :: rest, count, num_created =>
      (ThreadWorker.report_status
          (PyVal.str ("Creating tickets for Contract ID: " ++ item.id))
        ++ ThreadWorker.report_progress
          (PyVal.int (pyRound ((count + 1) * 100) num_selected))
        ++ (TicketCreator.ticketLoop num_selected rest (count + 1) (num_created + 1)).1,
        (TicketCreator.ticketLoop num_selected rest (count + 1) (num_created + 1)).2)

/-- `TicketCreator.thread_action` (lines 238-266).  With no items, a single
status is emitted and nothing else (no result, no success, no error).  With
items, a kickoff status and progress 5, the per-item loop, progress 100, a
summary status, and a result dict `created/selected/skipped`; note that no
`report_success` call occurs on any path. -/
def TicketCreator.thread_action (items : List Item) : List WEvent :=
  if items.length = 0 then
    ThreadWorker.report_status (PyVal.str "Creating 0 tickets, no contracts selected")
  else
    ThreadWorker.report_status
        (PyVal.str ("Creating tickets for " ++ toString items.length ++ " selected contracts"))
      ++ ThreadWorker.report_progress (PyVal.int 5)
      ++ (TicketCreator.ticketLoop items.length items 0 0).1
      ++ ThreadWorker.report_progress (PyVal.int 100)
      ++ ThreadWorker.report_status
        (PyVal.str ("Of " ++ toString items.length ++ " selected contracts, "
          ++ toString (TicketCreator.ticketLoop items.length items 0 0).2
          ++ " tickets were created, and " ++ toString (0 : Nat) ++ " were skipped"))
      ++ ThreadWorker.report_result
        (PyVal.dict
          [("created", ((TicketCreator.ticketLoop items.length items 0 0).2 : Int)),
            ("selected", (items.length : Int)),
            ("skipped", (0 : Int))])

/-- A full `run()` of a `TicketCreator` over the given items; its
`thread_action` raises nothing (every modelled item has an id). -/
def TicketCreator.run (items : List Item) : List WEvent :=
  (ThreadWorker.run { events := TicketCreator.thread_action items, raised := false }).1

/-- Observable effects of `ThreadWorkerCommunicator` handlers on UI sinks. -/
inductive UIAction where
  | setProgressValue (v : PyVal)
  | setStatusText (v : PyVal)
  | updateIdletasks
deriving DecidableEq, Repr

/-- `ThreadWorkerCommunicator.on_progress` (lines 206-210): only when a
progressbar is bound (`if self.progressbar:`) does it assign the bar's
value and request `update_idletasks`; with no progressbar it does nothing
and cannot raise. -/
def ThreadWorkerCommunicator.on_progress (progressbar : Option Unit) (progress : PyVal) :
    List UIAction :=
  match progressbar with
  | some _ => [UIAction.setProgressValue progress, UIAction.updateIdletasks]
  | none => []

/-- Is this event on the error channel? -/
def isErrorEv : WEvent → Bool
  | .error _ => true
  | _ => false

/-- Is this event on the success channel (any payload)? -/
def isSuccessEv : WEvent → Bool
  | .success _ => true
  | _ => false

/-- Is this event on the result channel? -/
def isResultEv : WEvent → Bool
  | .result _ => true
  | _ => false

/-- Does this event belong to a terminal outcome (error, result or success
channel), as opposed to a progress/status event? -/
def isTerminalEv (e : WEvent) : Bool :=
  isErrorEv e || isSuccessEv e || isResultEv e

/-- The payloads of the progress events of a trace, in order. -/
def progressVals (evs : List WEvent) : List PyVal :=
  evs.filterMap fun e =>
    match e with
    | .progress v => some v
    | _ => none

theorem progressVals_nil : progressVals [] = [] := rfl

theorem progressVals_append (a b : List WEvent) :
    progressVals (a ++ b) = progressVals a ++ progressVals b :=
  List.filterMap_append a b _

theorem runLoopGo_eq (cbs : List String) (maxE : Nat) :
    ∀ (vs : List PyVal) (n : Nat), n < maxE →
      runLoopGo cbs maxE vs n =
        ((vs.take (maxE - n)).flatMap (fun d => cbs.map fun cb => (cb, d)),
          vs.drop (maxE - n)) := by
  intro vs
  induction vs with
  | nil => intro n h; simp [runLoopGo]
  | cons d rest ih =>
    intro n h
    by_cases hc : n + 1 ≥ maxE
    · have h1 : maxE - n = 1 := by omega
      simp [runLoopGo, hc, h1]
    · have h2 : n + 1 < maxE := by omega
      have h3 : maxE - n = (maxE - (n + 1)) + 1 := by omega
      rw [runLoopGo, if_neg hc, ih (n + 1) h2, h3,
        List.take_succ_cons, List.drop_succ_cons]
      simp

theorem runLoopGo_mem (cbs : List String) (maxE : Nat) :
    ∀ (vs : List PyVal) (n : Nat) (pr : String × PyVal),
      pr ∈ (runLoopGo cbs maxE vs n).1 → pr.2 ∈ vs := by
  intro vs
  induction vs with
  | nil => intro n pr h; simp [runLoopGo] at h
  | cons d rest ih =>
    intro n pr h
    by_cases hc : n + 1 ≥ maxE
    · rw [runLoopGo, if_pos hc] at h
      simp only [List.mem_map] at h
      obtain ⟨cb, _, hcb⟩ := h
      rw [← hcb]
      exact List.mem_cons_self d rest
    · rw [runLoopGo, if_neg hc] at h
      rcases List.mem_append.mp h with hl | hr
      · simp only [List.mem_map] at hl
        obtain ⟨cb, _, hcb⟩ := hl
        rw [← hcb]
        exact List.mem_cons_self d rest
      · exact List.mem_cons_of_mem d (ih (n + 1) pr hr)

theorem ticketLoop_snd (k : Nat) :
    ∀ (items : List Item) (count num_created : Nat),
      (TicketCreator.ticketLoop k items count num_created).2
        = num_created + items.length := by
  intro items
  induction items with
  | nil => intro count num_created; simp [TicketCreator.ticketLoop]
  | cons item rest ih =>
    intro count num_created
    rw [TicketCreator.ticketLoop]
    rw [ih (count + 1) (num_created + 1)]
    simp
    omega

theorem ticketLoop_progress (k : Nat) :
    ∀ (items : List Item) (count num_created : Nat),
      progressVals (TicketCreator.ticketLoop k items count num_created).1
        = (List.range' (count + 1) items.length).map
            (fun i => PyVal.int (pyRound (i * 100) k)) := by
  intro items
  induction items with
  | nil => intro count num_created; simp [TicketCreator.ticketLoop, progressVals]
  | cons item rest ih =>
    intro count num_created
    rw [TicketCreator.ticketLoop]
    rw [List.length_cons, List.range'_succ]
    simp only [List.map_cons]
    rw [progressVals_append, progressVals_append]
    rw [ih (count + 1) (num_created + 1)]
    simp [ThreadWorker.report_status, ThreadWorker.report_progress, channelSend,
      isinstance, progressVals]

theorem ticketLoop_status (k : Nat) :
    ∀ (items : List Item) (count num_created : Nat) (item : Item),
      item ∈ items →
      WEvent.status (PyVal.str ("Creating tickets for Contract ID: " ++ item.id))
        ∈ (TicketCreator.ticketLoop k items count num_created).1 := by
  intro items
  induction items with
  | nil => intro count num_created item h; simp at h
  | cons hd rest ih =>
    intro count num_created item h
    rw [TicketCreator.ticketLoop]
    rcases List.mem_cons.mp h with he | hm
    · subst he
      simp [ThreadWorker.report_status, channelSend, isinstance]
    · simp only [List.mem_append]
      exact Or.inr (ih (count + 1) (num_created + 1) item hm)

theorem progressVals_cons_progress (v : PyVal) (evs : List WEvent) :
    progressVals (WEvent.progress v :: evs) = v :: progressVals evs := rfl

theorem progressVals_cons_status (v : PyVal) (evs : List WEvent) :
    progressVals (WEvent.status v :: evs) = progressVals evs := rfl

theorem progressVals_cons_result (v : PyVal) (evs : List WEvent) :
    progressVals (WEvent.result v :: evs) = progressVals evs := rfl

theorem ticketRun_events (items : List Item) :
    TicketCreator.run items
      = WEvent.status (PyVal.str "Starting") :: WEvent.progress (PyVal.int 0)
          :: TicketCreator.thread_action items := rfl

theorem thread_action_ne (items : List Item) (h : items.length ≠ 0) :
    TicketCreator.thread_action items
      = WEvent.status (PyVal.str ("Creating tickets for " ++ toString items.length
            ++ " selected contracts"))
        :: WEvent.progress (PyVal.int 5)
        :: ((TicketCreator.ticketLoop items.length items 0 0).1
          ++ WEvent.progress (PyVal.int 100)
          :: WEvent.status (PyVal.str ("Of " ++ toString items.length
              ++ " selected contracts, "
              ++ toString (TicketCreator.ticketLoop items.length items 0 0).2
              ++ " tickets were created, and " ++ toString (0 : Nat) ++ " were skipped"))
          :: [WEvent.result (PyVal.dict
              [("created", ((TicketCreator.ticketLoop items.length items 0 0).2 : Int)),
                ("selected", (items.length : Int)),
                ("skipped", (0 : Int))])]) := by
  rw [TicketCreator.thread_action, if_neg h]
  simp [ThreadWorker.report_status, ThreadWorker.report_progress,
    ThreadWorker.report_result, channelSend, isinstance]

/-- Claim C1 (as amended): after any sequence of sends has left `N` values
queued, one `run_loop` with per-cycle bound `max_entries_per_loop ≥ 1`
delivers exactly the first `min(N, bound)` values in FIFO order, each value
passed to every subscriber in registration order before the next value, and
removes exactly those values from the queue; draining an empty channel
invokes no callbacks and leaves the queue empty.  (For bound 0 the code
still processes one value, see the counterexample.) -/
theorem claim_C1_drain (ch : ThreadChannel) (h : 1 ≤ ch.max_entries_per_loop) :
    (ch.run_loop).1
        = (ch.queue.take ch.max_entries_per_loop).flatMap
            (fun d => ch.callbacks.map fun cb => (cb, d))
  ∧ (ch.run_loop).2.queue = ch.queue.drop ch.max_entries_per_loop
  ∧ ch.queue.length - (ch.run_loop).2.queue.length
        = min ch.queue.length ch.max_entries_per_loop
  ∧ (ch.queue = [] → (ch.run_loop).1 = [] ∧ (ch.run_loop).2.queue = []) := by
  have he := runLoopGo_eq ch.callbacks ch.max_entries_per_loop ch.queue 0 (by omega)
  rw [Nat.sub_zero] at he
  refine ⟨?_, ?_, ?_, ?_⟩
  · simp only [ThreadChannel.run_loop]
    rw [he]
  · simp only [ThreadChannel.run_loop]
    rw [he]
  · simp only [ThreadChannel.run_loop]
    rw [he]
    simp only [List.length_drop]
    omega
  · intro hq
    simp [ThreadChannel.run_loop, hq, runLoopGo]

/-- Claim C1, instantiated: three queued ints, two subscribers, bound 2 —
the first two values are delivered to both subscribers in order and the
third remains queued. -/
theorem claim_C1_drain_witness :
    1 ≤ (ThreadChannel.mk PyType.int [PyVal.int 1, PyVal.int 2, PyVal.int 3]
          ["a", "b"] 2).max_entries_per_loop
  ∧ (ThreadChannel.run_loop (ThreadChannel.mk PyType.int
        [PyVal.int 1, PyVal.int 2, PyVal.int 3] ["a", "b"] 2)).1
      = [("a", PyVal.int 1), ("b", PyVal.int 1), ("a", PyVal.int 2), ("b", PyVal.int 2)]
  ∧ (ThreadChannel.run_loop (ThreadChannel.mk PyType.int
        [PyVal.int 1, PyVal.int 2, PyVal.int 3] ["a", "b"] 2)).2.queue
      = [PyVal.int 3] := by
  have h := claim_C1_drain (ThreadChannel.mk PyType.int
    [PyVal.int 1, PyVal.int 2, PyVal.int 3] ["a", "b"] 2) (by decide)
  exact ⟨by decide, by rw [h.1]; rfl, by rw [h.2.1]; rfl⟩

/-- Claim C1, counterexample to the claim as stated: with bound
`max_count = 0` and one queued value, `run_loop` still delivers and removes
one value (the bound is checked only after each value is processed), while
the claim demands `min(1, 0) = 0` deliveries. -/
theorem claim_C1_counterexample :
    (ThreadChannel.run_loop (ThreadChannel.mk PyType.int [PyVal.int 1] ["cb"] 0)).1
        = [("cb", PyVal.int 1)]
  ∧ (ThreadChannel.run_loop (ThreadChannel.mk PyType.int [PyVal.int 1] ["cb"] 0)).2.queue
        = []
  ∧ min 1 0 = 0 := by decide

/-- Claim C2: sending a value whose type does not match the channel's
declared type leaves the queue unchanged, and (provided the queue holds
only well-typed values, which every reachable channel state does, since
`send` is the only way to enqueue) no subscriber is ever invoked with that
value by a drain; the internal exception is caught inside `send` and never
reaches the caller, which the model reflects by `send` being total. -/
theorem claim_C2_send_wrong_type (ch : ThreadChannel) (data : PyVal)
    (hbad : isinstance data ch.var_type = false)
    (hq : ∀ v ∈ ch.queue, isinstance v ch.var_type = true) :
    (ch.send data).queue = ch.queue
  ∧ ∀ pr ∈ (ThreadChannel.run_loop (ch.send data)).1, pr.2 ≠ data := by
  have hs : ch.send data = ch := by
    simp [ThreadChannel.send, hbad]
  refine ⟨by rw [hs], ?_⟩
  intro pr hpr heq
  rw [hs] at hpr
  simp only [ThreadChannel.run_loop] at hpr
  have hmem : pr.2 ∈ ch.queue :=
    runLoopGo_mem ch.callbacks ch.max_entries_per_loop ch.queue 0 pr hpr
  have hgood := hq pr.2 hmem
  rw [heq, hbad] at hgood
  exact Bool.noConfusion hgood

/-- Claim C2, instantiated: sending a string on an int channel holding one
int leaves the queue as it was. -/
theorem claim_C2_send_wrong_type_witness :
    isinstance (PyVal.str "oops")
        (ThreadChannel.mk PyType.int [PyVal.int 3] ["cb"] 4).var_type = false
  ∧ (ThreadChannel.send (ThreadChannel.mk PyType.int [PyVal.int 3] ["cb"] 4)
        (PyVal.str "oops")).queue = [PyVal.int 3] :=
  ⟨by decide,
    (claim_C2_send_wrong_type (ThreadChannel.mk PyType.int [PyVal.int 3] ["cb"] 4)
      (PyVal.str "oops") (by decide) (by decide)).1⟩

/-- Claim C10: `report_progress` does no range validation — any integer,
negative or above 100, passes the progress channel's `isinstance(_, int)`
gate, is enqueued unchanged by `send`, and a drain delivers it unchanged to
every subscriber. -/
theorem claim_C10_progress_unchecked (p : Int) (ch : ThreadChannel)
    (hty : ch.var_type = PyType.int) (cbs : List String) (maxE : Nat) :
    ThreadWorker.report_progress (PyVal.int p) = [WEvent.progress (PyVal.int p)]
  ∧ (ch.send (PyVal.int p)).queue = ch.queue ++ [PyVal.int p]
  ∧ (ThreadChannel.run_loop (ThreadChannel.mk PyType.int [PyVal.int p] cbs maxE)).1
      = cbs.map fun cb => (cb, PyVal.int p) := by
  refine ⟨rfl, ?_, ?_⟩
  · simp [ThreadChannel.send, hty, isinstance]
  · simp only [ThreadChannel.run_loop, runLoopGo]
    split <;> simp [runLoopGo]

/-- Claim C10, instantiated at the out-of-range values -7 and 250: both are
reported, enqueued and delivered unchanged. -/
theorem claim_C10_progress_unchecked_witness :
    ThreadWorker.report_progress (PyVal.int (-7)) = [WEvent.progress (PyVal.int (-7))]
  ∧ (ThreadChannel.send (ThreadChannel.mk PyType.int [] ["cb"] 4)
        (PyVal.int 250)).queue = [PyVal.int 250]
  ∧ (ThreadChannel.run_loop (ThreadChannel.mk PyType.int [PyVal.int 250] ["cb"] 4)).1
      = [("cb", PyVal.int 250)] := by
  have h7 := claim_C10_progress_unchecked (-7)
    (ThreadChannel.mk PyType.int [] [] 4) rfl [] 4
  have h250 := claim_C10_progress_unchecked 250
    (ThreadChannel.mk PyType.int [] ["cb"] 4) rfl ["cb"] 4
  exact ⟨h7.1, by rw [h250.2.1]; rfl, by rw [h250.2.2]; rfl⟩

/-- Claim C3, code evaluated at the failing input: a `TicketCreator` run
over one item emits a result event but no success event at all —
`thread_action` (lines 238-266) never calls `report_success`, contradicting
the base class's documented contract (lines 156-159: "if success:
report_result, report_success") and the claimed result/success(true)
pairing. -/
theorem claim_C3_result_without_success :
    (TicketCreator.run [Item.mk "42"]).any isResultEv = true
  ∧ (TicketCreator.run [Item.mk "42"]).any isSuccessEv = false := by decide

/-- Claim C4, code evaluated at the failing input: a `TicketCreator` run
over the empty list emits only run's own starting status and progress plus
one status event — no terminal outcome (no error, no result, no success)
at all, contradicting the claimed "exactly one terminal outcome" for every
input list. -/
theorem claim_C4_empty_no_terminal :
    TicketCreator.run []
        = [WEvent.status (PyVal.str "Starting"), WEvent.progress (PyVal.int 0),
            WEvent.status (PyVal.str "Creating 0 tickets, no contracts selected")]
  ∧ (TicketCreator.run []).any isTerminalEv = false := ⟨rfl, rfl⟩

/-- Claim C5: over a non-empty list of `k` items, a `TicketCreator` run's
progress payloads are exactly `0, 5, round(1*100/k), ..., round(k*100/k), 100`
(Python rounding, modelled on the exact rationals), each item contributes a
status event whose text contains that item's identifier, and the result
event carries the dict `created = k`, `selected = k`, `skipped = 0` with
integer values. -/
theorem claim_C5_ticket_trace (items : List Item) (h : items ≠ []) :
    progressVals (TicketCreator.run items)
        = PyVal.int 0 :: PyVal.int 5 ::
            (((List.range' 1 items.length).map
                fun i => PyVal.int (pyRound (i * 100) items.length))
              ++ [PyVal.int 100])
  ∧ (∀ item ∈ items,
      WEvent.status (PyVal.str ("Creating tickets for Contract ID: " ++ item.id))
        ∈ TicketCreator.run items)
  ∧ WEvent.result (PyVal.dict
        [("created", (items.length : Int)), ("selected", (items.length : Int)),
          ("skipped", (0 : Int))])
      ∈ TicketCreator.run items := by
  have hk : items.length ≠ 0 := fun hz => h (List.length_eq_zero.mp hz)
  refine ⟨?_, ?_, ?_⟩
  · rw [ticketRun_events, thread_action_ne items hk]
    rw [progressVals_cons_status, progressVals_cons_progress,
      progressVals_cons_status, progressVals_cons_progress, progressVals_append,
      progressVals_cons_progress, progressVals_cons_status,
      progressVals_cons_result, progressVals_nil]
    rw [ticketLoop_progress items.length items 0 0]
  · intro item hitem
    have hm := ticketLoop_status items.length items 0 0 item hitem
    rw [ticketRun_events, thread_action_ne items hk]
    simp [List.mem_cons, List.mem_append, hm]
  · rw [ticketRun_events, thread_action_ne items hk,
      ticketLoop_snd items.length items 0 0]
    simp

/-- Claim C5, instantiated at the spec's own example, three items with ids
42, 12, 07: progress sequence 0, 5, 33, 67, 100, 100, a status naming each
id, and result `created = 3, selected = 3, skipped = 0`. -/
theorem claim_C5_ticket_trace_witness :
    progressVals (TicketCreator.run [Item.mk "42", Item.mk "12", Item.mk "07"])
        = [PyVal.int 0, PyVal.int 5, PyVal.int 33, PyVal.int 67,
            PyVal.int 100, PyVal.int 100]
  ∧ WEvent.status (PyVal.str "Creating tickets for Contract ID: 12")
      ∈ TicketCreator.run [Item.mk "42", Item.mk "12", Item.mk "07"]
  ∧ WEvent.result (PyVal.dict [("created", 3), ("selected", 3), ("skipped", 0)])
      ∈ TicketCreator.run [Item.mk "42", Item.mk "12", Item.mk "07"] := by
  have h := claim_C5_ticket_trace [Item.mk "42", Item.mk "12", Item.mk "07"]
    (by decide)
  refine ⟨?_, ?_, ?_⟩
  · rw [h.1]; decide
  · exact h.2.1 (Item.mk "12") (by decide)
  · exact h.2.2

/-- Claim C6: `report_error(text)` emits exactly the triple status "Error",
error text, success false, in that order; the underlying sends are total
(any internal exception is caught inside `send`), so nothing is raised. -/
theorem claim_C6_error_triple (m : String) :
    ThreadWorker.report_error (PyVal.str m)
      = [WEvent.status (PyVal.str "Error"), WEvent.error (PyVal.str m),
          WEvent.success (PyVal.bool false)] := rfl

/-- Claim C7: when `thread_action` raises an uncaught exception after
emitting some events, `run` catches it at its own boundary (second
component `false`: nothing propagates to `run`'s caller), the whole trace
is just the initial status "Starting" and progress 0 followed by the
pre-fault events, and any error/result/success event in the trace was
emitted before the fault. -/
theorem claim_C7_fault_swallowed (t : TaskOutcome) (_h : t.raised = true) :
    (ThreadWorker.run t).1
        = WEvent.status (PyVal.str "Starting") :: WEvent.progress (PyVal.int 0)
            :: t.events
  ∧ (ThreadWorker.run t).2 = false
  ∧ ∀ e ∈ (ThreadWorker.run t).1, isTerminalEv e = true → e ∈ t.events := by
  refine ⟨rfl, rfl, ?_⟩
  intro e he ht
  have hr : (ThreadWorker.run t).1
      = WEvent.status (PyVal.str "Starting") :: WEvent.progress (PyVal.int 0)
          :: t.events := rfl
  rw [hr] at he
  rcases List.mem_cons.mp he with he1 | he'
  · subst he1
    simp [isTerminalEv, isErrorEv, isSuccessEv, isResultEv] at ht
  · rcases List.mem_cons.mp he' with he2 | hm
    · subst he2
      simp [isTerminalEv, isErrorEv, isSuccessEv, isResultEv] at ht
    · exact hm

/-- Claim C7, instantiated: a task that emitted one status and then raised
— the run trace is exactly starting status, progress 0, that status, and
nothing propagates to the caller. -/
theorem claim_C7_fault_swallowed_witness :
    (ThreadWorker.run (TaskOutcome.mk [WEvent.status (PyVal.str "working")] true)).1
        = [WEvent.status (PyVal.str "Starting"), WEvent.progress (PyVal.int 0),
            WEvent.status (PyVal.str "working")]
  ∧ (ThreadWorker.run (TaskOutcome.mk [WEvent.status (PyVal.str "working")] true)).2
        = false := by
  have h := claim_C7_fault_swallowed
    (TaskOutcome.mk [WEvent.status (PyVal.str "working")] true) rfl
  exact ⟨h.1, h.2.1⟩

/-- Claim C8: with no progress sink bound (`progressbar` is `None`, hence
falsy), `on_progress` performs no sink assignment and no UI refresh request
for any drained progress value, and being a total function it raises
nothing. -/
theorem claim_C8_no_progressbar (p : PyVal) :
    ThreadWorkerCommunicator.on_progress none p = [] := rfl

/-- Claim C9: `report_success()` emits the fixed status "Success"
immediately before the success(true) event — a status the spec's terminal
outcome description does not mention. -/
theorem claim_C9_success_status :
    ThreadWorker.report_success
      = [WEvent.status (PyVal.str "Success"), WEvent.success (PyVal.bool true)] := rfl
